import Mathlib

/-!
Verification development for the intaste/assera query-orchestration middleware.

The definitions below are a shallow embedding of the Python sources:

* `app/core/search_agent/scoring.py`   — heuristic relevance scoring
* `app/core/search_agent/fess.py`      — the retrieval loop (`search_stream`,
  `_should_retry`, `_evaluate_relevance`, `_extract_retry_intent`)
* `app/core/search_agent/multi.py`     — multi-agent merge
* `app/core/llm/ollama.py`             — LLM client (`intent`, `compose_stream`)
* `app/core/llm/base.py`               — pydantic output models and the client protocol
* `app/routers/assist_stream.py`       — SSE streaming endpoints (both services)

Python floats are modelled as rationals (`ℚ`); the relevant code only ever
compares, clamps and averages scores, so exact arithmetic mirrors the control
flow faithfully.  Python exceptions are modelled with `Except`/`Option`; a
pydantic model whose construction can fail validation is modelled by a
`validate` smart constructor returning `Option`.  External calls (LLM, search
provider) are modelled as oracle functions supplied per attempt.  Strings are
handled through their character lists so that every definition evaluates by
kernel reduction.
-/

/-! ### Python string primitives (ASCII fragment)

Models of `str.strip`, `str.lower`, `str.split`, the `in` substring test and
`re.findall(r"\w+", ...)`, on the ASCII fragment that the claims exercise. -/

/-- Model of Python whitespace for `str.strip` / `str.split` (ASCII fragment). -/
def pySpace (c : Char) : Bool := c.isWhitespace

/-- Model of Python `str.strip()`: drop leading and trailing whitespace. -/
def pyStrip (s : String) : String :=
  ⟨((s.data.dropWhile pySpace).reverse.dropWhile pySpace).reverse⟩

/-- Model of Python `str.lower()` (ASCII fragment). -/
def pyLower (s : String) : String := ⟨s.data.map Char.toLower⟩

/-- Model of Python `hay.startswith(pre)`. -/
def pyStartsWith (hay pre : String) : Bool := pre.data.isPrefixOf hay.data

/-- Substring test on character lists: `needle` occurs contiguously in `hay`. -/
def listContains (needle : List Char) : List Char → Bool
  | [] => needle.isEmpty
  | c :: cs => needle.isPrefixOf (c :: cs) || listContains needle cs

/-- Model of Python `needle in hay` for strings (substring containment). -/
def pyContains (hay needle : String) : Bool := listContains needle.data hay.data

/-- Maximal runs of characters satisfying `p`, left to right (auxiliary). -/
def runsAux (p : Char → Bool) : List Char → List Char → List (List Char)
  | [], acc => if acc.isEmpty then [] else [acc.reverse]
  | c :: cs, acc =>
    if p c then runsAux p cs (c :: acc)
    else if acc.isEmpty then runsAux p cs []
    else acc.reverse :: runsAux p cs []

/-- Maximal runs of characters satisfying `p`, in order of appearance. -/
def runs (p : Char → Bool) (l : List Char) : List (List Char) := runsAux p l []

/-- Word character for the regex `\w` (ASCII fragment: alphanumeric or underscore). -/
def isWordChar (c : Char) : Bool := c.isAlphanum || c == '_'

/-- Model of Python `re.findall(r"\w+", s)`: the maximal word-character runs of `s`. -/
def findallWords (s : String) : List String := (runs isWordChar s.data).map String.mk

/-- Model of Python `s.split()`: whitespace-delimited words, empties dropped. -/
def pySplitWs (s : String) : List String :=
  (runs (fun c => !pySpace c) s.data).map String.mk

/-! ### `scoring.py` — heuristic relevance scoring -/

/-- Model of Python `max(a, b)` on floats, as rationals (kernel-reducible). -/
def pymax (a b : ℚ) : ℚ := if a ≤ b then b else a

/-- Model of Python `min(a, b)` on floats, as rationals (kernel-reducible). -/
def pymin (a b : ℚ) : ℚ := if b ≤ a then b else a

/-- Stop words of `_tokenize` in `scoring.py`. -/
def stop_words : List String :=
  ["a", "an", "the", "in", "on", "at", "to", "for", "of", "is", "are", "was"]

/-- Model of `_tokenize` in `scoring.py`: lowercase word tokens of length > 2
that are not stop words, as a set. -/
def tokenize (text : String) : Finset String :=
  ((findallWords (pyLower text)).filter
    (fun t => 2 < t.length ∧ t ∉ stop_words)).toFinset

/-- Model of `_calculate_substring_score` in `scoring.py` (arguments already
lowercased by the caller, as in the source). -/
def calculate_substring_score (query title : String) : ℚ :=
  if query = "" ∨ title = "" then 0
  else if pyContains title query then 1
  else
    let query_words := pySplitWs query
    if query_words = [] then 0
    else ((query_words.filter (fun w => pyContains title w)).length : ℚ)
      / query_words.length

/-- Model of `calculate_relevance_score` in `scoring.py`. -/
def calculate_relevance_score (query title : String) : ℚ :=
  let query_tokens := tokenize query
  let title_tokens := tokenize title
  if query_tokens.card = 0 ∨ title_tokens.card = 0 then 0
  else
    let intersection := query_tokens ∩ title_tokens
    let union := query_tokens ∪ title_tokens
    let jaccard : ℚ := if union.card ≠ 0 then (intersection.card : ℚ) / union.card else 0
    let overlap_ratio : ℚ :=
      if query_tokens.card ≠ 0 then (intersection.card : ℚ) / query_tokens.card else 0
    let substring_score := calculate_substring_score (pyLower query) (pyLower title)
    let score := 3/10 * jaccard + 1/2 * overlap_ratio + 1/5 * substring_score
    pymin 1 (pymax 0 score)

/-- Written from the spec's words for comparison with
`calculate_relevance_score` (claim C8): the unconditional weighted blend
"30% Jaccard + 50% query-token coverage + 20% substring bonus, clamped",
with no early return for empty token sets. -/
def specWeightedBlendScore (query title : String) : ℚ :=
  let query_tokens := tokenize query
  let title_tokens := tokenize title
  let intersection := query_tokens ∩ title_tokens
  let union := query_tokens ∪ title_tokens
  let jaccard : ℚ := if union.card ≠ 0 then (intersection.card : ℚ) / union.card else 0
  let overlap_ratio : ℚ :=
    if query_tokens.card ≠ 0 then (intersection.card : ℚ) / query_tokens.card else 0
  let substring_score := calculate_substring_score (pyLower query) (pyLower title)
  pymin 1 (pymax 0 (3/10 * jaccard + 1/2 * overlap_ratio + 1/5 * substring_score))

/-! ### Search data model

`SearchHit` lives in `app/core/search_provider/base.py`, which for the
intaste service is only present through its callers and tests; the assera
sibling defines `id/title/url/snippet/score/meta`, and the intaste code and
tests additionally read and write `relevance_score` / `relevance_reason`
(spec §3 `SearchResultItem`). -/

/-- Modelled from the spec: one search result (`SearchHit` of
`search_provider/base.py`, spec §3 `SearchResultItem`); field set as used by
`fess.py`, `multi.py` and the unit tests. -/
structure SearchHit where
  id : String
  title : String
  url : String
  snippet : Option String := none
  score : Option ℚ := none
  relevance_score : Option ℚ := none
  relevance_reason : Option String := none
  meta : Option (List (String × String)) := none
deriving DecidableEq, Repr

/-- Model of `max((hit.relevance_score for hit in hits if hit.relevance_score
is not None), default=0.0)` in `fess.py`. -/
def maxRelevanceScore (hits : List SearchHit) : ℚ :=
  match hits.filterMap (fun h => h.relevance_score) with
  | [] => 0
  | x :: xs => xs.foldl pymax x

/-! ### `FessSearchAgent._should_retry` -/

/-- Model of `FessSearchAgent._should_retry` in `fess.py`. -/
def should_retry (hits : List SearchHit) (threshold : ℚ)
    (retry_count max_retries : ℕ) : Bool :=
  if max_retries ≤ retry_count then false
  else if hits.isEmpty then true
  else decide (maxRelevanceScore hits < threshold)

/-! ### `FessSearchAgent._evaluate_relevance`

The per-item LLM judge is an oracle `ℕ → Option (ℚ × String)` mapping the
1-based item index to `(score, reason)` on success and to `none` when that
item's evaluation raised or timed out (the inner `except` of
`evaluate_single_hit` catches it and keeps the hit unscored).  The overall
`asyncio.timeout` budget is a boolean: `true` means the whole batch timed
out before the gather finished. -/

/-- Slice `hits[:evaluation_count]` of `_evaluate_relevance` (Python truthiness:
`None` and `0` both select all hits). -/
def hitsToEvaluate (hits : List SearchHit) (evaluation_count : Option ℕ) :
    List SearchHit :=
  match evaluation_count with
  | some n => if n = 0 then hits else hits.take n
  | none => hits

/-- Slice `hits[evaluation_count:]` of `_evaluate_relevance` under the same
truthiness convention. -/
def hitsNotEvaluated (hits : List SearchHit) (evaluation_count : Option ℕ) :
    List SearchHit :=
  match evaluation_count with
  | some n => if n = 0 then [] else hits.drop n
  | none => []

/-- Model of `evaluate_single_hit` in `_evaluate_relevance`: on success the hit
gets `relevance_score`/`relevance_reason` via `model_copy(update=...)`, on
failure the original hit is kept (the error is swallowed). -/
def evaluateSingleHit (item : ℕ → Option (ℚ × String)) (idx : ℕ)
    (h : SearchHit) : SearchHit :=
  match item idx with
  | some (s, r) => { h with relevance_score := some s, relevance_reason := some r }
  | none => h

/-- Sort key of the final `all_hits.sort(key=..., reverse=True)` in
`_evaluate_relevance`: `relevance_score` with `None` mapped to `-1`. -/
def relevanceSortKey (h : SearchHit) : ℚ := h.relevance_score.getD (-1)

/-- Model of Python's stable descending `list.sort(key=relevanceSortKey,
reverse=True)` (insertion sort with a "comes no later than" test is stable and
agrees with any stable sort for this key). -/
def pySortByRelevanceDesc (l : List SearchHit) : List SearchHit :=
  List.insertionSort (fun a b => relevanceSortKey b ≤ relevanceSortKey a) l

/-- The `all_hits` list of `_evaluate_relevance` before the final sort:
each evaluated slot processed by `evaluate_single_hit` (1-based index),
followed by the hits beyond `evaluation_count`. -/
def processedHits (hits : List SearchHit) (evaluation_count : Option ℕ)
    (item : ℕ → Option (ℚ × String)) : List SearchHit :=
  (hitsToEvaluate hits evaluation_count).enum.map
    (fun p => evaluateSingleHit item (p.1 + 1) p.2)
    ++ hitsNotEvaluated hits evaluation_count

/-- Model of `FessSearchAgent._evaluate_relevance` in `fess.py`. -/
def evaluate_relevance (hits : List SearchHit) (evaluation_count : Option ℕ)
    (batchTimedOut : Bool) (item : ℕ → Option (ℚ × String)) : List SearchHit :=
  if batchTimedOut then hits
  else pySortByRelevanceDesc (processedHits hits evaluation_count item)

/-! ### `IntentOutput` and the Ollama client's `intent` -/

/-- Ambiguity literal of `IntentOutput` (`llm/base.py`). -/
inductive Ambiguity
  | low
  | medium
  | high
deriving DecidableEq, Repr

/-- Opaque filters bag (`filters: dict[str, Any] | None`): key-value pairs. -/
abbrev FiltersV : Type := List (String × String)

/-- Model of the pydantic model `IntentOutput` (`llm/base.py`):
`normalized_query` non-empty, at most three followups. -/
structure IntentOutput where
  normalized_query : String
  filters : Option FiltersV
  followups : List String
  ambiguity : Ambiguity
deriving DecidableEq, Repr

/-- Model of constructing `IntentOutput(...)`: pydantic validation of
`min_length=1` on `normalized_query` and `max_length=3` on `followups`;
`none` models the constructor raising `ValidationError`. -/
def IntentOutput.validate (nq : String) (filters : Option FiltersV)
    (followups : List String) (ambiguity : Ambiguity) : Option IntentOutput :=
  if nq.length ≥ 1 ∧ followups.length ≤ 3 then
    some ⟨nq, filters, followups, ambiguity⟩
  else none

/-- Python exception classes that the embedded code distinguishes. -/
inductive PyErr
  | validationError
  | timeoutError
  | runtimeError
  | typeError
deriving DecidableEq, Repr

/-- Outcome of one `_complete`-and-parse round in `OllamaClient.intent`:
the HTTP call raised (`TimeoutError`/`RuntimeError`/other — not caught by the
first-round handler), or it returned text that validated into an
`IntentOutput`, or it returned text that failed JSON parsing / pydantic
validation. -/
inductive LLMIntentAttempt
  | callRaised
  | parsed (i : IntentOutput)
  | badOutput
deriving DecidableEq, Repr

/-- Model of `OllamaClient.intent` (`ollama.py` lines 54-151) as a function of
the outcomes of its two `_complete`-and-parse rounds.  A first-round
`_complete` exception propagates (only `JSONDecodeError`/`ValidationError`
are caught); after a first-round parse failure, any second-round failure
falls back to `IntentOutput(normalized_query=query.strip(), filters=filters,
followups=[], ambiguity="medium")` — whose construction itself raises
`ValidationError` when the stripped query is empty. -/
def ollamaIntent (first retry : LLMIntentAttempt) (query : String)
    (filters : Option FiltersV) : Except PyErr IntentOutput :=
  match first with
  | .callRaised => .error .timeoutError
  | .parsed i => .ok i
  | .badOutput =>
    match retry with
    | .parsed i => .ok i
    | _ =>
      match IntentOutput.validate (pyStrip query) filters [] .medium with
      | some i => .ok i
      | none => .error .validationError

/-! ### `FessSearchAgent.search_stream` — the retrieval loop

External interactions are oracles indexed by the current `retry_count`:
the normal-path `llm_client.intent`, the `llm_client.intent` inside
`_extract_retry_intent`, the `search_provider.search` call, and the batch
relevance evaluation (whose own internals are modelled separately by
`evaluate_relevance`; the loop only consumes its resulting hit list or the
fact that the whole step raised). -/

/-- Result of `search_provider.search` (`SearchResult`): hits plus backend total. -/
structure SearchResultV where
  hits : List SearchHit
  total : ℕ
deriving DecidableEq, Repr

/-- Outcome of one `llm_client.intent` call: raised or returned. -/
inductive IntentCall
  | raises
  | ok (i : IntentOutput)
deriving DecidableEq, Repr

/-- Outcome of one `search_provider.search` call: raised or returned. -/
inductive SearchCall
  | raises
  | ok (r : SearchResultV)
deriving DecidableEq, Repr

/-- Outcome of one `_evaluate_relevance` step as seen by the loop: raised, or
returned an evaluated hit list. -/
inductive RelevanceBatch
  | raises
  | ok (hits : List SearchHit)
deriving DecidableEq, Repr

/-- Parameters of the `retry_intent` (low-score) prompt template
(`RetryIntentParams`), with `low_score_results` kept structured as the
`(score, truncated title)` rows the code formats from the top 5 hits. -/
structure RetryIntentParamsV where
  query : String
  previous_normalized_query : String
  language : String
  low_score_results : List (ℚ × String)
deriving DecidableEq, Repr

/-- Parameters of the `retry_intent_no_results` prompt template
(`RetryIntentNoResultsParams`). -/
structure RetryIntentNoResultsParamsV where
  query : String
  previous_normalized_query : String
  language : String
deriving DecidableEq, Repr

/-- Which intent-extraction path one loop attempt used, with the template
parameters the retry paths supply. -/
inductive IntentStep
  | normal
  | retryLowScore (p : RetryIntentParamsV)
  | retryNoResults (p : RetryIntentNoResultsParamsV)
deriving DecidableEq, Repr

/-- Status phases emitted by the agent (`StatusEventData.phase`). -/
inductive AgentPhase
  | intent
  | search
  | relevance
deriving DecidableEq, Repr

/-- Events of `search_stream` (`SearchEvent` of `search_agent/base.py`),
projected to the payload fields the claims are about. -/
inductive AgentEvent
  | status (p : AgentPhase)
  | intentEvent (normalized_query : String) (ambiguity : Ambiguity)
  | relevanceEvent (evaluated_count : ℕ) (max_score : ℚ)
  | retryEvent (attempt : ℕ) (previous_max_score : ℚ)
  | citationsEvent (hits : List SearchHit) (total : ℕ)
deriving DecidableEq, Repr

/-- Oracles for the loop's external calls, indexed by `retry_count`. -/
structure LoopEnv where
  intentCall : ℕ → IntentCall
  retryIntentCall : ℕ → IntentCall
  searchCall : ℕ → SearchCall
  relevanceBatch : ℕ → RelevanceBatch

deriving instance DecidableEq for Except

/-- Observable outcome of a `search_stream` run: the events yielded, the
intent path of each attempt, the normalized query handed to the search
provider on each attempt, and either the final citations payload or the
exception that escaped the generator. -/
structure LoopOut where
  events : List AgentEvent
  steps : List IntentStep
  searchQueries : List String
  result : Except PyErr (List SearchHit × ℕ)
deriving DecidableEq, Repr

/-- Rows of `low_score_results` built in `_extract_retry_intent`: top five
hits as `(score or 0.0, title[:100])`. -/
def lowScoreResultsOf (hits : List SearchHit) : List (ℚ × String) :=
  (hits.take 5).map (fun h => (h.relevance_score.getD 0, ⟨h.title.data.take 100⟩))

/-- Model of `FessSearchAgent._extract_retry_intent` (`fess.py` lines
614-698): choose the prompt template by whether the previous attempt had
hits, call `llm_client.intent`, and on any exception fall back to
`IntentOutput(normalized_query=query.strip(), filters=None, followups=[],
ambiguity="medium")` — whose construction raises when the strip is empty. -/
def extract_retry_intent (outcome : IntentCall) (query prevq : String)
    (hits : List SearchHit) (language : String) :
    IntentStep × Except PyErr IntentOutput :=
  let step : IntentStep :=
    if hits.isEmpty then .retryNoResults ⟨query, prevq, language⟩
    else .retryLowScore ⟨query, prevq, language, lowScoreResultsOf hits⟩
  let res : Except PyErr IntentOutput :=
    match outcome with
    | .ok i => .ok i
    | .raises =>
      match IntentOutput.validate (pyStrip query) none [] .medium with
      | some i => .ok i
      | none => .error .validationError
  (step, res)

/-- Python truthiness of `previous_normalized_query : Optional[str]`. -/
def optStrTruthy (o : Option String) : Bool :=
  match o with
  | some s => decide (s ≠ "")
  | none => false

/-- Step 1 of one loop iteration of `search_stream` (`fess.py` lines
128-210): the dispatch of lines 144-170 between the retry path and the
normal path, together with the `except` of line 183 — any exception from the
try block falls back to `IntentOutput(normalized_query=query.strip(),
filters=options filters, followups=[], ambiguity="medium")`, which itself
raises `ValidationError` when the strip is empty. -/
def attemptIntent (env : LoopEnv) (query : String) (filters : Option FiltersV)
    (language : String) (retry_count : ℕ) (prev : Option String)
    (evaluated0 : List SearchHit) : IntentStep × Except PyErr IntentOutput :=
  let stepAndRaw : IntentStep × Except PyErr IntentOutput :=
    if retry_count > 0 && optStrTruthy prev && !evaluated0.isEmpty then
      extract_retry_intent (env.retryIntentCall retry_count) query
        (prev.getD "") evaluated0 language
    else
      (.normal,
        match env.intentCall retry_count with
        | .ok i => .ok i
        | .raises => .error .timeoutError)
  (stepAndRaw.1,
    match stepAndRaw.2 with
    | .ok i => .ok i
    | .error _ =>
      match IntentOutput.validate (pyStrip query) filters [] .medium with
      | some i => .ok i
      | none => .error .validationError)

/-- Step 3 of one loop iteration of `search_stream` (`fess.py` lines
270-347): with hits present, a successful batch evaluation yields the
relevance status and relevance events, the evaluated hits and their maximum
score; a raised evaluation yields only the status event, keeps the raw
search hits and scores the attempt `0.0`; with no hits there is nothing to
evaluate.  Returns `(events, evaluated_hits, max_score)`. -/
def relevanceStep (env : LoopEnv) (retry_count : ℕ) (sr : SearchResultV) :
    List AgentEvent × List SearchHit × ℚ :=
  if sr.hits.isEmpty then ([], [], 0)
  else
    match env.relevanceBatch retry_count with
    | .ok l =>
      ([.status .relevance, .relevanceEvent l.length (maxRelevanceScore l)],
       l, maxRelevanceScore l)
    | .raises => ([.status .relevance], sr.hits, 0)

/-- One-or-more iterations of the `while retry_count <= max_retries` loop of
`search_stream` (`fess.py` lines 125-402), starting at state
`(retry_count, previous_normalized_query, evaluated_hits)`.  `fuel` bounds
the remaining iterations; `runLoop` supplies `max_retries + 1`, which is
exact since every retry increments `retry_count` and requires
`retry_count < max_retries`. -/
def loopIter (env : LoopEnv) (query : String) (filters : Option FiltersV)
    (language : String) (threshold : ℚ) (max_retries : ℕ) :
    ℕ → ℕ → Option String → List SearchHit → LoopOut
  | 0, _, _, _ => ⟨[], [], [], .error .runtimeError⟩
  | fuel + 1, retry_count, prev, evaluated0 =>
    -- Step 1: intent extraction.
    let stepRes := attemptIntent env query filters language retry_count prev
      evaluated0
    let step := stepRes.1
    match stepRes.2 with
    | .error e => ⟨[.status .intent], [step], [], .error e⟩
    | .ok intent =>
      let evHead : List AgentEvent :=
        [.status .intent, .intentEvent intent.normalized_query intent.ambiguity,
         .status .search]
      -- Step 2: search execution; failure is fatal (lines 259-268).
      match env.searchCall retry_count with
      | .raises =>
        ⟨evHead, [step], [intent.normalized_query], .error .runtimeError⟩
      | .ok sr =>
        -- Step 3: relevance evaluation (lines 273-347).
        let relOut := relevanceStep env retry_count sr
        let evaluated := relOut.2.1
        let max_score := relOut.2.2
        let evs := evHead ++ relOut.1
        -- Step 4: retry decision (lines 352-388).
        if should_retry evaluated threshold retry_count max_retries then
          let rest := loopIter env query filters language threshold max_retries
            fuel (retry_count + 1) (some intent.normalized_query) evaluated
          ⟨evs ++ [.retryEvent (retry_count + 1) max_score] ++ rest.events,
           step :: rest.steps,
           intent.normalized_query :: rest.searchQueries,
           rest.result⟩
        else
          ⟨evs ++ [.citationsEvent evaluated sr.total], [step],
           [intent.normalized_query], .ok (evaluated, sr.total)⟩

/-- Model of a full `FessSearchAgent.search_stream` run. -/
def runLoop (env : LoopEnv) (query : String) (filters : Option FiltersV)
    (language : String) (threshold : ℚ) (max_retries : ℕ) : LoopOut :=
  loopIter env query filters language threshold max_retries
    (max_retries + 1) 0 none []

/-! ### `MultiSearchAgent.search_stream` — multi-agent merge -/

/-- Model of the pydantic model `SearchAgentTimings` (`search_agent/base.py`):
all fields are non-negative integers, `timings` is a required sub-model. -/
structure SearchAgentTimingsV where
  intent_ms : ℕ
  search_ms : ℕ
  relevance_ms : ℕ
  retry_count : ℕ
deriving DecidableEq, Repr

/-- Model of the pydantic model `SearchAgentResult` (`search_agent/base.py`). -/
structure SearchAgentResultV where
  hits : List SearchHit
  total : ℕ
  normalized_query : String
  original_query : String
  followups : List String
  filters : Option FiltersV
  timings : SearchAgentTimingsV
  notice : Option String
  ambiguity : Ambiguity
deriving DecidableEq, Repr

/-- Model of constructing `SearchAgentResult(...)`: pydantic validation of
`min_length=1` on `normalized_query` and `original_query`, `max_length=3` on
`followups`, and the required non-optional `timings` sub-model (`none` models
passing `timings=None`, which raises `ValidationError`). -/
def SearchAgentResult.validate (hits : List SearchHit) (total : ℕ)
    (normalized_query original_query : String) (followups : List String)
    (filters : Option FiltersV) (timings : Option SearchAgentTimingsV)
    (notice : Option String) (ambiguity : Ambiguity) :
    Option SearchAgentResultV :=
  if normalized_query.length ≥ 1 ∧ original_query.length ≥ 1 ∧
      followups.length ≤ 3 then
    match timings with
    | some t =>
      some ⟨hits, total, normalized_query, original_query, followups, filters,
        t, notice, ambiguity⟩
    | none => none
  else none

/-- Observable behaviour of one sub-agent's `search_stream` inside
`MultiSearchAgent.search_stream`: the stream raised, or completed without a
citations event, or completed with a final citations event carrying
`(hits, total)`. -/
inductive AgentRun
  | failed
  | noCitations
  | completed (hits : List SearchHit) (total : ℕ)
deriving DecidableEq, Repr

/-- Model of the pydantic model `MergeOutput` (`llm/base.py`), as returned by
a successful `llm_client.merge_results` call. -/
structure MergeOutputV where
  selected_agent_ids : List String
  merge_strategy : String
deriving DecidableEq, Repr

/-- Outcome of the `llm_client.merge_results` call: raised or returned. -/
inductive MergeCall
  | raises
  | ok (m : MergeOutputV)
deriving DecidableEq, Repr

/-- Model of collecting one agent's terminal result in
`MultiSearchAgent.search_stream` (`multi.py` lines 94-128): a completed agent
feeds its citations payload into `SearchAgentResult(hits=..., total=...,
normalized_query="", original_query=query, followups=[], filters={},
timings=None, notice=None, ambiguity="medium")`; a raise during that
construction is caught by the per-agent `except` and the agent is treated as
failed, so `none` means "not collected". -/
def collectAgentResult (query : String) (run : AgentRun) :
    Option SearchAgentResultV :=
  match run with
  | .completed h t =>
    SearchAgentResult.validate h t "" query [] (some []) none none .medium
  | _ => none

/-- First assoc entry for `agent_results[agent_id]`. -/
def assocFind (l : List (String × SearchAgentResultV)) (k : String) :
    Option SearchAgentResultV :=
  (l.find? (fun p => p.1 == k)).map (fun p => p.2)

/-- Model of the tail of `MultiSearchAgent.search_stream` (`multi.py` lines
130-254): the final citations payload `(hits, total)` and whether the merge
LLM was invoked.  Zero collected results yield empty citations; exactly one
short-circuits the merge; two or more invoke `llm_client.merge_results`, with
the first collected agent as fallback on any merge failure (including an
unknown selected agent id, whose dict lookup raises `KeyError` into the same
`except`). -/
def multiSearchFinal (query : String) (agents : List (String × AgentRun))
    (merge : MergeCall) : (List SearchHit × ℕ) × Bool :=
  let collected : List (String × SearchAgentResultV) :=
    agents.filterMap
      (fun p => (collectAgentResult query p.2).map (fun r => (p.1, r)))
  match collected with
  | [] => (([], 0), false)
  | [(_, r)] => ((r.hits, r.total), false)
  | (_, r0) :: _ :: _ =>
    match merge with
    | .raises => ((r0.hits, r0.total), true)
    | .ok m =>
      if m.merge_strategy = "single" then
        match m.selected_agent_ids with
        | [] => ((r0.hits, r0.total), true)
        | sid :: _ =>
          match assocFind collected sid with
          | some r => ((r.hits, r.total), true)
          | none => ((r0.hits, r0.total), true)
      else
        let merged := m.selected_agent_ids.filterMap (assocFind collected)
        let final_hits := merged.foldl (fun acc r => acc ++ r.hits) []
        let final_total := merged.foldl (fun acc r => acc + r.total) 0
        ((pySortByRelevanceDesc final_hits, final_total), true)

/-! ### A model of `json.loads`

Strict recursive-descent reading of the JSON grammar as Python's `json.loads`
accepts it (strings reject raw control characters and unknown escapes;
numbers follow the JSON grammar; trailing input is rejected).  `\uXXXX`
escapes outside the basic plane and the NaN/Infinity extensions are not
modelled; the theorems that quantify over parses are conditioned on
`json_loads` succeeding. -/

/-- JSON values as produced by `json.loads`. -/
inductive Json
  | null
  | bool (b : Bool)
  | num (q : ℚ)
  | str (s : String)
  | arr (elems : List Json)
  | obj (members : List (String × Json))

/-- Opening brace character, written via its code point. -/
def lbrace : Char := Char.ofNat 123

/-- Closing brace character, written via its code point. -/
def rbrace : Char := Char.ofNat 125

/-- JSON insignificant whitespace. -/
def jsonWs (c : Char) : Bool := c == ' ' || c == '\t' || c == '\n' || c == '\r'

/-- Skip insignificant whitespace. -/
def skipWs (cs : List Char) : List Char := cs.dropWhile jsonWs

/-- Hexadecimal digit value. -/
def hexVal (c : Char) : Option ℕ :=
  if '0' ≤ c ∧ c ≤ '9' then some (c.toNat - 48)
  else if 'a' ≤ c ∧ c ≤ 'f' then some (c.toNat - 87)
  else if 'A' ≤ c ∧ c ≤ 'F' then some (c.toNat - 55)
  else none

/-- Decimal digits to a natural number. -/
def digitsToNat (ds : List Char) : ℕ :=
  ds.foldl (fun a c => 10 * a + (c.toNat - 48)) 0

/-- JSON string body after the opening quote; returns the decoded string and
the input after the closing quote. -/
def parseJStrAux (acc : List Char) : List Char → Option (String × List Char)
  | [] => none
  | c :: cs =>
    if c == '"' then some (⟨acc.reverse⟩, cs)
    else if c == '\\' then
      match cs with
      | [] => none
      | e :: cs2 =>
        if e == '"' then parseJStrAux ('"' :: acc) cs2
        else if e == '\\' then parseJStrAux ('\\' :: acc) cs2
        else if e == '/' then parseJStrAux ('/' :: acc) cs2
        else if e == 'b' then parseJStrAux (Char.ofNat 8 :: acc) cs2
        else if e == 'f' then parseJStrAux (Char.ofNat 12 :: acc) cs2
        else if e == 'n' then parseJStrAux (Char.ofNat 10 :: acc) cs2
        else if e == 'r' then parseJStrAux (Char.ofNat 13 :: acc) cs2
        else if e == 't' then parseJStrAux (Char.ofNat 9 :: acc) cs2
        else if e == 'u' then
          match cs2 with
          | h1 :: h2 :: h3 :: h4 :: cs3 =>
            match hexVal h1, hexVal h2, hexVal h3, hexVal h4 with
            | some a, some b, some c2, some d =>
              parseJStrAux (Char.ofNat (((a * 16 + b) * 16 + c2) * 16 + d) :: acc) cs3
            | _, _, _, _ => none
          | _ => none
        else none
    else if c.toNat < 32 then none
    else parseJStrAux (c :: acc) cs

/-- JSON fraction part: digits after `.` if present. -/
def parseJFrac (cs : List Char) : Option (List Char × List Char) :=
  match cs with
  | '.' :: rest =>
    let fd := rest.takeWhile Char.isDigit
    if fd.isEmpty then none else some (fd, rest.dropWhile Char.isDigit)
  | _ => some ([], cs)

/-- JSON exponent part: `(negative?, digits, rest)`. -/
def parseJExp (cs : List Char) : Option (Bool × List Char × List Char) :=
  match cs with
  | c :: rest =>
    if c == 'e' || c == 'E' then
      let signAndRest : Bool × List Char :=
        match rest with
        | '-' :: r => (true, r)
        | '+' :: r => (false, r)
        | _ => (false, rest)
      let ed := signAndRest.2.takeWhile Char.isDigit
      if ed.isEmpty then none
      else some (signAndRest.1, ed, signAndRest.2.dropWhile Char.isDigit)
    else some (false, [], c :: rest)
  | [] => some (false, [], [])

/-- Power of ten in `ℚ`. -/
def pow10 (n : ℕ) : ℚ := (10 : ℚ) ^ n

/-- JSON number (after an optional leading minus handled by the caller):
strict integer part (`0` or nonzero-led digits), fraction, exponent. -/
def parseJNumAbs (cs : List Char) : Option (ℚ × List Char) :=
  match cs with
  | [] => none
  | d :: rest =>
    if d == '0' then
      match parseJFrac rest with
      | none => none
      | some (fd, rest2) =>
        match parseJExp rest2 with
        | none => none
        | some (negE, ed, rest3) =>
          let base : ℚ := (digitsToNat fd : ℚ) / pow10 fd.length
          let scaled := if negE then base / pow10 (digitsToNat ed)
            else base * pow10 (digitsToNat ed)
          some (scaled, rest3)
    else if d.isDigit then
      let ip := (d :: rest).takeWhile Char.isDigit
      let rest1 := (d :: rest).dropWhile Char.isDigit
      match parseJFrac rest1 with
      | none => none
      | some (fd, rest2) =>
        match parseJExp rest2 with
        | none => none
        | some (negE, ed, rest3) =>
          let base : ℚ := (digitsToNat ip : ℚ) + (digitsToNat fd : ℚ) / pow10 fd.length
          let scaled := if negE then base / pow10 (digitsToNat ed)
            else base * pow10 (digitsToNat ed)
          some (scaled, rest3)
    else none

mutual

/-- JSON value (fuel-bounded recursive descent; `json_loads` supplies ample
fuel, which decreases on every recursive call). -/
def parseJVal : ℕ → List Char → Option (Json × List Char)
  | 0, _ => none
  | fuel + 1, cs =>
    match skipWs cs with
    | [] => none
    | c :: rest =>
      if c == '"' then
        match parseJStrAux [] rest with
        | some (s, rest2) => some (.str s, rest2)
        | none => none
      else if c == lbrace then parseJObjBody fuel rest
      else if c == '[' then parseJArrBody fuel rest
      else if c == 't' then
        match rest with
        | 'r' :: 'u' :: 'e' :: rest2 => some (.bool true, rest2)
        | _ => none
      else if c == 'f' then
        match rest with
        | 'a' :: 'l' :: 's' :: 'e' :: rest2 => some (.bool false, rest2)
        | _ => none
      else if c == 'n' then
        match rest with
        | 'u' :: 'l' :: 'l' :: rest2 => some (.null, rest2)
        | _ => none
      else if c == '-' then
        match parseJNumAbs rest with
        | some (q, rest2) => some (.num (-q), rest2)
        | none => none
      else
        match parseJNumAbs (c :: rest) with
        | some (q, rest2) => some (.num q, rest2)
        | none => none

/-- JSON object body after the opening brace. -/
def parseJObjBody : ℕ → List Char → Option (Json × List Char)
  | 0, _ => none
  | fuel + 1, cs =>
    match skipWs cs with
    | [] => none
    | c :: rest =>
      if c == rbrace then some (.obj [], rest)
      else parseJMembers fuel (c :: rest)

/-- JSON object members (at least one `"key": value` pair). -/
def parseJMembers : ℕ → List Char → Option (Json × List Char)
  | 0, _ => none
  | fuel + 1, cs =>
    match skipWs cs with
    | '"' :: rest =>
      match parseJStrAux [] rest with
      | none => none
      | some (key, rest2) =>
        match skipWs rest2 with
        | ':' :: rest3 =>
          match parseJVal fuel rest3 with
          | none => none
          | some (v, rest4) =>
            match skipWs rest4 with
            | ',' :: rest5 =>
              match parseJMembers fuel rest5 with
              | some (.obj kvs, rest6) => some (.obj ((key, v) :: kvs), rest6)
              | _ => none
            | c :: rest5 =>
              if c == rbrace then some (.obj [(key, v)], rest5) else none
            | [] => none
        | _ => none
    | _ => none

/-- JSON array body after the opening bracket. -/
def parseJArrBody : ℕ → List Char → Option (Json × List Char)
  | 0, _ => none
  | fuel + 1, cs =>
    match skipWs cs with
    | [] => none
    | c :: rest =>
      if c == ']' then some (.arr [], rest)
      else parseJElems fuel (c :: rest)

/-- JSON array elements (at least one value). -/
def parseJElems : ℕ → List Char → Option (Json × List Char)
  | 0, _ => none
  | fuel + 1, cs =>
    match parseJVal fuel cs with
    | none => none
    | some (v, rest) =>
      match skipWs rest with
      | ',' :: rest2 =>
        match parseJElems fuel rest2 with
        | some (.arr vs, rest3) => some (.arr (v :: vs), rest3)
        | _ => none
      | ']' :: rest2 => some (.arr [v], rest2)
      | _ => none

end

/-- Model of Python `json.loads`: parse one JSON document, allowing only
whitespace afterwards. -/
def json_loads (s : String) : Option Json :=
  match parseJVal (2 * s.length + 8) s.data with
  | some (j, rest) => if (skipWs rest).isEmpty then some j else none
  | none => none

/-- Model of `parsed.get(key, ...)`.`isSome` / `key in parsed` on an object
built by `json.loads`: Python dicts keep the last duplicate key. -/
def pyDictGet (kvs : List (String × Json)) (k : String) : Option Json :=
  (kvs.reverse.find? (fun p => p.1 == k)).map (fun p => p.2)

/-! ### Streamed answer composition — the routers' final answer text -/

/-- Accumulation `full_text += chunk` over the streamed chunks. -/
def concatChunks (chunks : List String) : String :=
  ⟨(chunks.map String.data).flatten⟩

/-- Model of the defensive unwrap in assera's `stream_assist_response`
(`assera-api/app/routers/assist_stream.py` lines 206-223): when the
accumulated stream text starts with a brace and `json.loads` yields a dict
containing `"text"`, the complete event's answer text becomes
`parsed.get("text", full_text)` (whatever JSON value that is); otherwise the
raw accumulated text is used. -/
def assera_cleaned_value (full_text : String) : Json :=
  if pyStartsWith full_text ⟨[lbrace]⟩ then
    match json_loads full_text with
    | some (Json.obj kvs) =>
      match pyDictGet kvs "text" with
      | some v => v
      | none => Json.str full_text
    | _ => Json.str full_text
  else Json.str full_text

/-- Consumer-visible answer text of assera's `complete` event, as a function
of the compose-stream chunks. -/
def assera_complete_answer_value (chunks : List String) : Json :=
  assera_cleaned_value (concatChunks chunks)

/-- Consumer-visible answer text of intaste's `complete` event
(`intaste-api/app/routers/assist_stream.py` line 297): the accumulated
`full_text` verbatim — this router performs no unwrapping. -/
def intaste_complete_answer_text (chunks : List String) : String :=
  concatChunks chunks

/-! ### `compose_stream` keyword binding — intaste streaming endpoint

Python binds keyword arguments at call time: a keyword the callee does not
accept raises `TypeError` before the generator produces anything. -/

/-- Keyword parameters accepted by `OllamaClient.compose_stream`
(`intaste-api/app/core/llm/ollama.py` lines 453-460). -/
def ollamaComposeStreamParams : List String :=
  ["query", "normalized_query", "citations_data", "followups", "timeout_ms"]

/-- Keyword parameters accepted by the `LLMClient.compose_stream` protocol
(`intaste-api/app/core/llm/base.py` lines 103-113). -/
def protocolComposeStreamParams : List String :=
  ["query", "normalized_query", "citations_data", "followups", "language",
   "timeout_ms"]

/-- Keyword arguments the intaste streaming endpoint passes to
`llm_client.compose_stream` (`intaste-api/app/routers/assist_stream.py`
lines 252-260). -/
def intasteComposeCallKwargs : List String :=
  ["query", "normalized_query", "citations_data", "followups", "language",
   "timeout_ms", "selected_threshold"]

/-- Python keyword binding succeeds iff every supplied keyword is accepted
(all required positionals are supplied here, and none is duplicated). -/
def kwargsAccepted (params kwargs : List String) : Bool :=
  kwargs.all (fun k => params.contains k)

/-- SSE events of the streaming endpoints, projected to what the claims
inspect. -/
inductive SSEEvent
  | statusEv (phase : String)
  | chunk (text : String)
  | complete (answer_text : String)
  | errorEv (code : String)
deriving DecidableEq, Repr

/-- Model of the error mapping in intaste's `stream_assist_response`
(lines 333-343): `TimeoutError → TIMEOUT`, `RuntimeError → SERVICE_ERROR`,
anything else (including `TypeError`) → `PROCESSING_ERROR`. -/
def classifyStreamError (e : PyErr) : String :=
  match e with
  | .timeoutError => "TIMEOUT"
  | .runtimeError => "SERVICE_ERROR"
  | _ => "PROCESSING_ERROR"

/-- Model of the compose phase of intaste's `stream_assist_response`
(lines 225-322): after the compose status event, the endpoint calls
`llm_client.compose_stream(query=..., normalized_query=...,
citations_data=..., followups=..., language=..., timeout_ms=...,
selected_threshold=...)`; if the client does not accept those keywords the
call raises `TypeError`, which the outer `except` maps to a single error
event; otherwise the chunks stream out followed by the `complete` event. -/
def intasteComposePhaseEvents (clientParams : List String)
    (chunks : List String) : List SSEEvent :=
  if kwargsAccepted clientParams intasteComposeCallKwargs then
    .statusEv "compose" :: chunks.map .chunk
      ++ [.complete (concatChunks chunks)]
  else
    [.statusEv "compose", .errorEv (classifyStreamError .typeError)]

/-! ### Concrete fixtures used by the theorems below -/

/-- Environment whose LLM calls succeed and whose searches succeed with empty
result sets. -/
def envAllOk : LoopEnv where
  intentCall := fun _ => .ok ⟨"test", none, [], .low⟩
  retryIntentCall := fun _ => .ok ⟨"test broadened", none, [], .medium⟩
  searchCall := fun _ => .ok ⟨[], 0⟩
  relevanceBatch := fun _ => .ok []

/-- Environment of the zero-result retry scenario: distinct normal-path
intents per attempt, a distinct retry-path intent, searches returning zero
hits. -/
def envZeroResults : LoopEnv where
  intentCall := fun k =>
    if k = 0 then .ok ⟨"xyzzy plugh", none, [], .low⟩
    else .ok ⟨"second normal intent", none, [], .low⟩
  retryIntentCall := fun _ => .ok ⟨"broadened query", none, [], .medium⟩
  searchCall := fun _ => .ok ⟨[], 0⟩
  relevanceBatch := fun _ => .ok []

/-- Environment whose LLM intent calls always raise but whose searches
succeed with empty result sets. -/
def envIntentRaises : LoopEnv where
  intentCall := fun _ => .raises
  retryIntentCall := fun _ => .raises
  searchCall := fun _ => .ok ⟨[], 0⟩
  relevanceBatch := fun _ => .ok []

/-- Environment whose search calls always raise. -/
def envSearchRaises : LoopEnv where
  intentCall := fun _ => .ok ⟨"test", none, [], .low⟩
  retryIntentCall := fun _ => .ok ⟨"test broadened", none, [], .medium⟩
  searchCall := fun _ => .raises
  relevanceBatch := fun _ => .ok []

/-- Sample hit. -/
def hitA : SearchHit :=
  { id := "1", title := "Security policy handbook", url := "https://example.com/1" }

/-- Second sample hit. -/
def hitB : SearchHit :=
  { id := "2", title := "Quarterly report", url := "https://example.com/2" }

/-- Per-item judge for the batch-evaluation witness: item 1 fails, item 2
scores 1. -/
def itemC3 : ℕ → Option (ℚ × String) :=
  fun idx => if idx = 2 then some (1, "exact match") else none

/-! ### Helper lemmas -/

lemma isPrefixOf_self (l : List Char) : l.isPrefixOf l = true := by
  induction l with
  | nil => rfl
  | cons c cs ih => simp [List.isPrefixOf, ih]

lemma listContains_self (l : List Char) : listContains l l = true := by
  cases l with
  | nil => rfl
  | cons c cs => simp [listContains, isPrefixOf_self]

lemma pyContains_self (s : String) : pyContains s s = true := by
  simpa [pyContains] using listContains_self s.data

lemma le_pymax_left (a b : ℚ) : a ≤ pymax a b := by
  unfold pymax; split <;> linarith

lemma pymin_le_left (a b : ℚ) : pymin a b ≤ a := by
  unfold pymin; split <;> linarith

lemma pymin_nonneg {a b : ℚ} (ha : 0 ≤ a) (hb : 0 ≤ b) : 0 ≤ pymin a b := by
  unfold pymin; split <;> assumption

lemma string_one_le_length {s : String} (h : s ≠ "") : 1 ≤ s.length := by
  cases s with
  | mk data =>
    cases data with
    | nil => exact absurd rfl h
    | cons c cs => simp [String.length]

lemma tokenize_card_zero_of_lower_empty {q : String} (h : pyLower q = "") :
    (tokenize q).card = 0 := by
  simp only [tokenize]
  rw [h]
  decide

lemma pyLower_ne_empty_of_tokenize {q : String} (h : (tokenize q).card ≠ 0) :
    pyLower q ≠ "" :=
  fun hl => h (tokenize_card_zero_of_lower_empty hl)

/-! ### Claim C8 — heuristic score formula -/

/-- Claim C8 (corrected), counterexample: at `query = "ab"`, `title = "abc"`
the code returns `0.0` (both tokens of length ≤ 2 are stripped, so the
token-set guard fires) while the spec's unconditional weighted-blend formula
gives `0.2` from the substring bonus; the claimed equality is false at this
input. -/
theorem C8_counterexample :
    calculate_relevance_score "ab" "abc" = 0
    ∧ specWeightedBlendScore "ab" "abc" = 1/5
    ∧ calculate_relevance_score "ab" "abc" ≠ specWeightedBlendScore "ab" "abc" := by
  have h1 : calculate_relevance_score "ab" "abc" = 0 := by
    simp only [calculate_relevance_score]
    rw [if_pos (Or.inl (by decide))]
  have h2 : specWeightedBlendScore "ab" "abc" = 1/5 := by
    simp only [specWeightedBlendScore]
    norm_num [show (tokenize "ab").card = 0 from by decide,
      show (tokenize "ab" ∪ tokenize "abc").card = 1 from by decide,
      show (tokenize "ab" ∩ tokenize "abc").card = 0 from by decide,
      show calculate_substring_score (pyLower "ab") (pyLower "abc") = 1 from by decide,
      pymin, pymax]
  refine ⟨h1, h2, ?_⟩
  rw [h1, h2]
  norm_num

/-- Claim C8 (corrected): `calculate_relevance_score` equals the spec's
weighted blend (30% Jaccard over the filtered lowercase token sets, 50%
query-token coverage, 20% substring bonus, clamped to `[0,1]`) whenever both
token sets are non-empty; when either token set is empty (in particular for
empty query or title strings) the score is `0.0`; and the score always lies
in `[0,1]`. -/
theorem C8_heuristic_score_formula :
    (∀ q t, (tokenize q).card ≠ 0 → (tokenize t).card ≠ 0 →
      calculate_relevance_score q t = specWeightedBlendScore q t)
    ∧ (∀ q t, (tokenize q).card = 0 ∨ (tokenize t).card = 0 →
      calculate_relevance_score q t = 0)
    ∧ (∀ q t, 0 ≤ calculate_relevance_score q t ∧ calculate_relevance_score q t ≤ 1)
    ∧ (∀ t, calculate_relevance_score "" t = 0)
    ∧ (∀ q, calculate_relevance_score q "" = 0) := by
  have h2 : ∀ q t, (tokenize q).card = 0 ∨ (tokenize t).card = 0 →
      calculate_relevance_score q t = 0 := by
    intro q t h
    simp only [calculate_relevance_score]
    rw [if_pos h]
  refine ⟨?_, h2, ?_, fun t => h2 "" t (Or.inl (by decide)),
    fun q => h2 q "" (Or.inr (by decide))⟩
  · intro q t hq ht
    simp only [calculate_relevance_score, specWeightedBlendScore]
    rw [if_neg (not_or.mpr ⟨hq, ht⟩)]
  · intro q t
    simp only [calculate_relevance_score]
    split
    · norm_num
    · exact ⟨pymin_nonneg (by norm_num) (le_pymax_left 0 _), pymin_le_left 1 _⟩

/-- Witness for C8: the formula equality at `("hello world", "world hello")`
(both token sets non-empty) and the zero cases at `("ab", "abc")` and the
empty strings, all obtained from `C8_heuristic_score_formula`. -/
theorem C8_heuristic_score_formula_witness :
    calculate_relevance_score "hello world" "world hello"
        = specWeightedBlendScore "hello world" "world hello"
    ∧ calculate_relevance_score "ab" "abc" = 0
    ∧ calculate_relevance_score "" "anything" = 0
    ∧ calculate_relevance_score "anything" "" = 0 :=
  ⟨C8_heuristic_score_formula.1 "hello world" "world hello" (by decide) (by decide),
   C8_heuristic_score_formula.2.1 "ab" "abc" (Or.inl (by decide)),
   C8_heuristic_score_formula.2.2.2.1 "anything",
   C8_heuristic_score_formula.2.2.2.2 "anything"⟩

/-! ### Claim C9 — self-match score -/

/-- Claim C9 (corrected), counterexample: the claim asserts
`score(q, q) ≥ 0.8` for every string `q`, but at `q = ""` the token set is
empty and the code returns `0.0 < 0.8`. -/
theorem C9_counterexample :
    calculate_relevance_score "" "" = 0
    ∧ ¬ (8/10 ≤ calculate_relevance_score "" "") := by
  have h : calculate_relevance_score "" "" = 0 := by
    simp only [calculate_relevance_score]
    rw [if_pos (Or.inl (by decide))]
  refine ⟨h, ?_⟩
  rw [h]
  norm_num

/-- Claim C9 (corrected): for every query whose filtered token set is
non-empty, the heuristic self-match score is at least `0.8` (it is exactly
`1`). -/
theorem C9_self_match_high (q : String) (h : (tokenize q).card ≠ 0) :
    8/10 ≤ calculate_relevance_score q q := by
  have hlow : pyLower q ≠ "" := pyLower_ne_empty_of_tokenize h
  have hsub : calculate_substring_score (pyLower q) (pyLower q) = 1 := by
    unfold calculate_substring_score
    rw [if_neg (by simp [hlow]), if_pos (pyContains_self _)]
  have hcard : ((tokenize q).card : ℚ) ≠ 0 := Nat.cast_ne_zero.mpr h
  simp only [calculate_relevance_score]
  rw [if_neg (by simp [h]), Finset.inter_self, Finset.union_self, if_pos h,
    hsub, div_self hcard]
  norm_num [pymin, pymax]

/-- Witness for C9: `q = "hello world"` has a non-empty token set and
self-match score at least `0.8`, by `C9_self_match_high`. -/
theorem C9_self_match_high_witness :
    8/10 ≤ calculate_relevance_score "hello world" "hello world" :=
  C9_self_match_high "hello world" (by decide)

/-! ### Claim C5 — intent-extraction fallback -/

/-- Claim C5 (corrected), counterexample: with the whitespace-only query
`" "` and both LLM rounds producing invalid output, the fallback construction
`IntentOutput(normalized_query="", ...)` violates its own `min_length=1`
constraint and raises `ValidationError`; the fallback does not return an
intent and does raise. -/
theorem C5_counterexample :
    ollamaIntent .badOutput .badOutput " " none = .error .validationError
    ∧ ∀ i : IntentOutput, ollamaIntent .badOutput .badOutput " " none ≠ .ok i := by
  refine ⟨rfl, fun i h => ?_⟩
  rw [show ollamaIntent .badOutput .badOutput " " none
    = .error .validationError from rfl] at h
  exact Except.noConfusion h

/-- Claim C5 (corrected): for every query whose trimmed form is non-empty,
when the first LLM round fails to produce valid output and the internal
retry also fails (raises or produces invalid output), `OllamaClient.intent`
returns the fallback `IntentOutput` with `normalized_query` equal to the
trimmed query, ambiguity `medium` and empty followups, without raising. -/
theorem C5_fallback_intent (q : String) (filters : Option FiltersV)
    (retry : LLMIntentAttempt) (hq : pyStrip q ≠ "")
    (hr : ∀ i, retry ≠ .parsed i) :
    ollamaIntent .badOutput retry q filters
      = .ok ⟨pyStrip q, filters, [], .medium⟩ := by
  have hv : IntentOutput.validate (pyStrip q) filters [] .medium
      = some ⟨pyStrip q, filters, [], .medium⟩ := by
    unfold IntentOutput.validate
    rw [if_pos ⟨string_one_le_length hq, by simp⟩]
  cases retry with
  | parsed i => exact absurd rfl (hr i)
  | callRaised => simp [ollamaIntent, hv]
  | badOutput => simp [ollamaIntent, hv]

/-- Witness for C5: a concrete padded query, both rounds failing, yields the
trimmed fallback intent, by `C5_fallback_intent`. -/
theorem C5_fallback_intent_witness :
    ollamaIntent .badOutput .badOutput "  security policy  " none
      = .ok ⟨"security policy", none, [], .medium⟩ := by
  rw [C5_fallback_intent "  security policy  " none .badOutput (by decide)
    (fun i h => LLMIntentAttempt.noConfusion h)]
  rfl

/-! ### Claim C10 — intaste compose-stream keyword mismatch -/

/-- Claim C10 (confirmed): the intaste streaming endpoint calls
`compose_stream` with keywords `language` and `selected_threshold`;
`OllamaClient.compose_stream` accepts neither and the `LLMClient` protocol
lacks `selected_threshold`, so the call raises `TypeError`; the endpoint then
emits exactly one error event with code `PROCESSING_ERROR` after the compose
status event, and never emits a chunk or complete event. -/
theorem C10_compose_stream_type_error :
    kwargsAccepted ollamaComposeStreamParams intasteComposeCallKwargs = false
    ∧ "selected_threshold" ∈ intasteComposeCallKwargs
    ∧ "selected_threshold" ∉ protocolComposeStreamParams
    ∧ "language" ∈ intasteComposeCallKwargs
    ∧ "language" ∉ ollamaComposeStreamParams
    ∧ classifyStreamError .typeError = "PROCESSING_ERROR"
    ∧ (∀ chunks, intasteComposePhaseEvents ollamaComposeStreamParams chunks
        = [.statusEv "compose", .errorEv "PROCESSING_ERROR"])
    ∧ (∀ chunks s, SSEEvent.chunk s
        ∉ intasteComposePhaseEvents ollamaComposeStreamParams chunks)
    ∧ (∀ chunks s, SSEEvent.complete s
        ∉ intasteComposePhaseEvents ollamaComposeStreamParams chunks) := by
  have hev : ∀ chunks, intasteComposePhaseEvents ollamaComposeStreamParams chunks
      = [.statusEv "compose", .errorEv "PROCESSING_ERROR"] := by
    intro chunks
    simp only [intasteComposePhaseEvents]
    rw [if_neg (by decide)]
    rfl
  refine ⟨by decide, by decide, by decide, by decide, by decide, rfl, hev, ?_, ?_⟩
  · intro chunks s h
    rw [hev chunks] at h
    simp at h
  · intro chunks s h
    rw [hev chunks] at h
    simp at h

/-- Witness for C10: with a concrete chunk stream, the compose phase of the
intaste endpoint produces only the compose status event and the
`PROCESSING_ERROR` error event, by `C10_compose_stream_type_error`. -/
theorem C10_compose_stream_type_error_witness :
    intasteComposePhaseEvents ollamaComposeStreamParams ["partial ", "answer"]
      = [.statusEv "compose", .errorEv "PROCESSING_ERROR"] :=
  C10_compose_stream_type_error.2.2.2.2.2.2.1 ["partial ", "answer"]

/-! ### Claim C7 — streamed compose JSON unwrap -/

/-- Claim C7 (corrected), counterexample: the intaste streaming endpoint
performs no unwrapping — the `complete` event's answer text is the raw
accumulated stream text, so for chunks concatenating to a JSON envelope the
consumer-visible final text is the raw JSON, not `"Hello"`. -/
theorem C7_counterexample :
    intaste_complete_answer_text
        ["\x7b\"text\": \"Hello\"", ", \"suggested_questions\": []\x7d"]
      = "\x7b\"text\": \"Hello\", \"suggested_questions\": []\x7d"
    ∧ intaste_complete_answer_text
        ["\x7b\"text\": \"Hello\"", ", \"suggested_questions\": []\x7d"]
      ≠ "Hello" :=
  ⟨rfl, by decide⟩

/-- Claim C7 (corrected): in the assera streaming endpoint, whenever the
concatenated compose-stream chunks start with a brace and parse as a JSON
object whose `"text"` member is a string, the `complete` event's answer text
is that inner string; in particular the chunks concatenating to
`{"text": "Hello", "suggested_questions": []}` yield `"Hello"`. -/
theorem C7_assera_stream_unwrap :
    (∀ chunks kvs t,
      pyStartsWith (concatChunks chunks) ⟨[lbrace]⟩ = true →
      json_loads (concatChunks chunks) = some (Json.obj kvs) →
      pyDictGet kvs "text" = some (Json.str t) →
      assera_complete_answer_value chunks = Json.str t)
    ∧ assera_complete_answer_value
        ["\x7b\"text\": \"Hello\"", ", \"suggested_questions\": []\x7d"]
      = Json.str "Hello" := by
  constructor
  · intro chunks kvs t hstart hload hget
    unfold assera_complete_answer_value assera_cleaned_value
    rw [if_pos hstart, hload]
    simp only [hget]
  · rfl

/-- Witness for C7: the concrete malformed stream of the claim, routed
through `C7_assera_stream_unwrap`. -/
theorem C7_assera_stream_unwrap_witness :
    assera_complete_answer_value
        ["\x7b\"text\": \"Hello\"", ", \"suggested_questions\": []\x7d"]
      = Json.str "Hello" :=
  C7_assera_stream_unwrap.1
    ["\x7b\"text\": \"Hello\"", ", \"suggested_questions\": []\x7d"]
    [("text", Json.str "Hello"), ("suggested_questions", Json.arr [])]
    "Hello" rfl rfl rfl

/-! ### Claim C6 — multi-agent short-circuit -/

lemma collectAgentResult_none (q : String) (run : AgentRun) :
    collectAgentResult q run = none := by
  cases run with
  | failed => rfl
  | noCitations => rfl
  | completed h t =>
    simp only [collectAgentResult, SearchAgentResult.validate]
    rw [if_neg]
    rintro ⟨h1, -, -⟩
    exact absurd h1 (by decide)

/-- Claim C6 (code bug): with exactly one productive agent (`a` with one hit)
and one empty agent (`b`), the merge LLM is not invoked but the final
citations are empty instead of agent `a`'s hits — every agent's
`SearchAgentResult(normalized_query="", ..., timings=None, ...)` fails its
own pydantic validation, so no agent is ever collected and the merge branch,
including the intended single-agent short-circuit, is unreachable for every
input. -/
theorem C6_multi_agent_short_circuit_bug :
    multiSearchFinal "policy" [("a", .completed [hitA] 1), ("b", .completed [] 0)]
        (.ok ⟨["a"], "single"⟩) = (([], 0), false)
    ∧ SearchAgentResult.validate [hitA] 1 "" "policy" [] (some []) none none .medium
        = none
    ∧ (∀ q agents m, (multiSearchFinal q agents m).2 = false)
    ∧ [hitA] ≠ ([] : List SearchHit) := by
  refine ⟨rfl, rfl, ?_, by decide⟩
  intro q agents m
  have hcol : agents.filterMap
      (fun p => (collectAgentResult q p.2).map (fun r => (p.1, r))) = [] := by
    rw [List.filterMap_eq_nil_iff]
    intro p _
    rw [collectAgentResult_none]
    rfl
  simp [multiSearchFinal, hcol]

/-! ### Claim C2 — retry-path intent extraction -/

/-- Claim C2 (code bug): in a run whose first attempt returns zero results
and retries, the retry attempt performs the normal first-attempt intent
extraction (`steps = [normal, normal]`), not the retry path's no-results
variant — the dispatch in `search_stream` requires non-empty
`evaluated_hits`, making the zero-results branch of
`_extract_retry_intent` (which would pick the `retry_intent_no_results`
template, last conjunct) unreachable from the loop. -/
theorem C2_zero_result_retry_uses_normal_path :
    (runLoop envZeroResults "xyzzy" none "en" 1 1).steps = [.normal, .normal]
    ∧ AgentEvent.retryEvent 1 0 ∈ (runLoop envZeroResults "xyzzy" none "en" 1 1).events
    ∧ (runLoop envZeroResults "xyzzy" none "en" 1 1).searchQueries
        = ["xyzzy plugh", "second normal intent"]
    ∧ (runLoop envZeroResults "xyzzy" none "en" 1 1).result = .ok ([], 0)
    ∧ (∀ outcome q p lang, (extract_retry_intent outcome q p [] lang).1
        = .retryNoResults ⟨q, p, lang⟩) :=
  ⟨by decide, by decide, by decide, by decide, fun _ _ _ _ => rfl⟩

/-! ### Claim C3 — batch relevance evaluation -/

/-- Claim C3 (confirmed): on overall batch timeout `_evaluate_relevance`
returns the input hit list unchanged (no partial scores); within the budget
the output is a permutation of the processed list, a hit whose own
evaluation failed is kept in the output unchanged (unscored), and a hit
whose evaluation returned `(s, r)` appears in the output carrying exactly
that score and reason. -/
theorem C3_batch_relevance :
    (∀ hits ec item, evaluate_relevance hits ec true item = hits)
    ∧ (∀ hits ec item,
        (evaluate_relevance hits ec false item).Perm (processedHits hits ec item))
    ∧ (∀ hits ec item i (hi : i < (hitsToEvaluate hits ec).length),
        (item (i+1) = none →
          (hitsToEvaluate hits ec).get ⟨i, hi⟩
            ∈ evaluate_relevance hits ec false item)
        ∧ (∀ s r, item (i+1) = some (s, r) →
          { (hitsToEvaluate hits ec).get ⟨i, hi⟩ with
              relevance_score := some s, relevance_reason := some r }
            ∈ evaluate_relevance hits ec false item)) := by
  have hperm : ∀ hits ec item,
      (evaluate_relevance hits ec false item).Perm (processedHits hits ec item) := by
    intro hits ec item
    simp only [evaluate_relevance, Bool.false_eq_true, if_false, pySortByRelevanceDesc]
    exact List.perm_insertionSort _ _
  refine ⟨fun hits ec item => by simp [evaluate_relevance], hperm, ?_⟩
  intro hits ec item i hi
  have hmem : ∀ x, x ∈ processedHits hits ec item →
      x ∈ evaluate_relevance hits ec false item :=
    fun x hx => ((hperm hits ec item).mem_iff).mpr hx
  have hin : evaluateSingleHit item (i+1) ((hitsToEvaluate hits ec).get ⟨i, hi⟩)
      ∈ processedHits hits ec item := by
    apply List.mem_append_left
    apply List.mem_map.mpr
    refine ⟨(i, (hitsToEvaluate hits ec).get ⟨i, hi⟩), ?_, rfl⟩
    rw [List.mem_enum_iff_getElem?, List.get_eq_getElem]
    exact List.getElem?_eq_getElem hi
  constructor
  · intro hnone
    have h := hmem _ hin
    simpa [evaluateSingleHit, hnone] using h
  · intro s r hsome
    have h := hmem _ hin
    simpa [evaluateSingleHit, hsome] using h

/-- Witness for C3: two hits, the first item's judge fails and the second
scores `1`; the timeout case returns the inputs, the failed hit stays
unscored in the output and the scored hit carries its score, all by
`C3_batch_relevance`. -/
theorem C3_batch_relevance_witness :
    evaluate_relevance [hitA, hitB] none true itemC3 = [hitA, hitB]
    ∧ hitA ∈ evaluate_relevance [hitA, hitB] none false itemC3
    ∧ { hitB with relevance_score := some 1, relevance_reason := some "exact match" }
        ∈ evaluate_relevance [hitA, hitB] none false itemC3 := by
  refine ⟨C3_batch_relevance.1 [hitA, hitB] none itemC3, ?_, ?_⟩
  · exact (C3_batch_relevance.2.2 [hitA, hitB] none itemC3 0 (by decide)).1 (by decide)
  · exact (C3_batch_relevance.2.2 [hitA, hitB] none itemC3 1 (by decide)).2 1
      "exact match" (by decide)

/-! ### Loop lemmas for claims C1 and C4 -/

lemma should_retry_lt {hits : List SearchHit} {thr : ℚ} {rc mr : ℕ}
    (h : should_retry hits thr rc mr = true) : rc < mr := by
  by_contra hc
  push_neg at hc
  unfold should_retry at h
  rw [if_pos hc] at h
  cases h

lemma validate_strip_ok {q : String} (hq : pyStrip q ≠ "")
    (f : Option FiltersV) :
    IntentOutput.validate (pyStrip q) f [] .medium
      = some ⟨pyStrip q, f, [], .medium⟩ := by
  unfold IntentOutput.validate
  rw [if_pos ⟨string_one_le_length hq, by simp⟩]

lemma attemptIntent_ok (env : LoopEnv) (query : String)
    (filters : Option FiltersV) (lang : String) (rc : ℕ)
    (prev : Option String) (ev : List SearchHit) (hq : pyStrip query ≠ "") :
    ∃ i, (attemptIntent env query filters lang rc prev ev).2 = .ok i := by
  by_cases hc : (rc > 0 && optStrTruthy prev && !ev.isEmpty) = true
  · cases hr : env.retryIntentCall rc with
    | ok i =>
      exact ⟨i, by simp [attemptIntent, hc, extract_retry_intent, hr]⟩
    | raises =>
      exact ⟨⟨pyStrip query, none, [], .medium⟩,
        by simp [attemptIntent, hc, extract_retry_intent, hr,
          validate_strip_ok hq]⟩
  · cases hn : env.intentCall rc with
    | ok i => exact ⟨i, by simp [attemptIntent, hc, hn]⟩
    | raises =>
      exact ⟨⟨pyStrip query, filters, [], .medium⟩,
        by simp [attemptIntent, hc, hn, validate_strip_ok hq]⟩

lemma attemptIntent_fallback (env : LoopEnv) (query : String)
    (filters : Option FiltersV) (lang : String) (rc : ℕ)
    (prev : Option String) (ev : List SearchHit) (hq : pyStrip query ≠ "")
    (h1 : env.intentCall rc = .raises) (h2 : env.retryIntentCall rc = .raises) :
    ∃ i, (attemptIntent env query filters lang rc prev ev).2 = .ok i
      ∧ i.normalized_query = pyStrip query := by
  by_cases hc : (rc > 0 && optStrTruthy prev && !ev.isEmpty) = true
  · exact ⟨⟨pyStrip query, none, [], .medium⟩,
      by simp [attemptIntent, hc, extract_retry_intent, h2,
        validate_strip_ok hq], rfl⟩
  · exact ⟨⟨pyStrip query, filters, [], .medium⟩,
      by simp [attemptIntent, hc, h1, validate_strip_ok hq], rfl⟩

lemma getLast?_append_concat {α : Type} (l1 l2 : List α) (c : α) :
    (l1 ++ l2 ++ [c]).getLast? = some c := by
  rw [List.append_assoc, List.getLast?_append, List.getLast?_concat]
  rfl

lemma loopIter_completes (env : LoopEnv) (query : String)
    (filters : Option FiltersV) (lang : String) (thr : ℚ) (mr : ℕ)
    (hs : ∀ k, env.searchCall k ≠ .raises) (hq : pyStrip query ≠ "") :
    ∀ fuel rc prev ev, rc + fuel = mr + 1 → rc ≤ mr →
      ∃ h t,
        (loopIter env query filters lang thr mr fuel rc prev ev).result
          = .ok (h, t)
        ∧ (loopIter env query filters lang thr mr fuel rc prev ev).events.getLast?
            = some (.citationsEvent h t)
        ∧ (loopIter env query filters lang thr mr fuel rc prev ev).steps.length
            ≤ fuel := by
  intro fuel
  induction fuel with
  | zero => intro rc prev ev hinv hrc; omega
  | succ f ih =>
    intro rc prev ev hinv hrc
    obtain ⟨intent, hint⟩ := attemptIntent_ok env query filters lang rc prev ev hq
    obtain ⟨sr, hsr⟩ : ∃ sr, env.searchCall rc = .ok sr := by
      cases hcall : env.searchCall rc with
      | raises => exact absurd hcall (hs rc)
      | ok sr => exact ⟨sr, rfl⟩
    simp only [loopIter, hint, hsr]
    by_cases hretry :
        should_retry (relevanceStep env rc sr).2.1 thr rc mr = true
    · rw [if_pos hretry]
      obtain ⟨h, t, hres, hlast, hlen⟩ :=
        ih (rc + 1) (some intent.normalized_query) (relevanceStep env rc sr).2.1
          (by omega) (should_retry_lt hretry)
      refine ⟨h, t, hres, ?_, ?_⟩
      · simp only [List.append_assoc, List.getLast?_append, hlast]
        rfl
      · simpa using Nat.succ_le_succ hlen
    · rw [if_neg hretry]
      exact ⟨(relevanceStep env rc sr).2.1, sr.total, rfl,
        getLast?_append_concat _ _ _, by simp⟩

/-! ### Claim C1 — retry decision law -/

/-- Claim C1 (confirmed): `_should_retry` returns true iff the retry budget
remains and either the evaluated result list is empty or the maximum
relevance score over scored items (`0.0` if none is scored) is below the
threshold; at `retry_count = max_retries` it is false regardless of score;
and a run whose searches all succeed (with a non-whitespace query, so the
intent fallback can always be constructed) ends without error in exactly one
final citations event carrying the last attempt's results, within
`max_retries + 1` attempts. -/
theorem C1_retry_decision :
    (∀ hits thr rc mr, should_retry hits thr rc mr = true ↔
      (rc < mr ∧ (hits = [] ∨ maxRelevanceScore hits < thr)))
    ∧ (∀ hits thr mr, should_retry hits thr mr mr = false)
    ∧ (∀ env query filters lang thr mr,
        (∀ k, (env : LoopEnv).searchCall k ≠ .raises) → pyStrip query ≠ "" →
        ∃ h t, (runLoop env query filters lang thr mr).result = .ok (h, t)
          ∧ (runLoop env query filters lang thr mr).events.getLast?
              = some (.citationsEvent h t)
          ∧ (runLoop env query filters lang thr mr).steps.length ≤ mr + 1) := by
  refine ⟨?_, ?_, ?_⟩
  · intro hits thr rc mr
    unfold should_retry
    split_ifs with h1 h2
    · simp only [Bool.false_eq_true, false_iff]
      rintro ⟨hlt, -⟩
      omega
    · simp only [true_iff]
      exact ⟨by omega, Or.inl (List.isEmpty_iff.mp h2)⟩
    · simp only [decide_eq_true_eq]
      constructor
      · intro hlt
        exact ⟨by omega, Or.inr hlt⟩
      · rintro ⟨-, h | h⟩
        · exact absurd (List.isEmpty_iff.mpr h) h2
        · exact h
  · intro hits thr mr
    unfold should_retry
    rw [if_pos le_rfl]
  · intro env query filters lang thr mr hs hq
    exact loopIter_completes env query filters lang thr mr hs hq
      (mr + 1) 0 none [] (by omega) (by omega)

/-- Witness for C1: a concrete run with always-successful empty searches and
budget 2 completes without error, ends in a citations event and uses at most
3 attempts, by `C1_retry_decision`. -/
theorem C1_retry_decision_witness :
    ∃ h t, (runLoop envAllOk "test" none "en" 1 2).result = .ok (h, t)
      ∧ (runLoop envAllOk "test" none "en" 1 2).events.getLast?
          = some (.citationsEvent h t)
      ∧ (runLoop envAllOk "test" none "en" 1 2).steps.length ≤ 3 :=
  C1_retry_decision.2.2 envAllOk "test" none "en" 1 2
    (fun _ h => SearchCall.noConfusion h) (by decide)

/-! ### Claim C4 — intent vs search failure semantics -/

/-- Claim C4 (corrected), counterexample: with the whitespace-only query
`" "` and intent extraction raising, the fallback
`IntentOutput(normalized_query="", ...)` raises `ValidationError` inside the
exception handler, so the loop aborts on an intent-extraction failure
(no search, no citations event) — contradicting "intent extraction failure
never aborts the loop". -/
theorem C4_counterexample :
    (runLoop envIntentRaises " " none "en" 1 2).result = .error .validationError
    ∧ (runLoop envIntentRaises " " none "en" 1 2).events = [.status .intent] :=
  ⟨by decide, by decide⟩

/-- Claim C4 (corrected): provided the trimmed query is non-empty, (i) a
search-provider failure at any reached attempt aborts the whole loop
immediately with a hard `RuntimeError`, emits no citations event and makes
no further attempt; (ii) if searches never fail the loop always completes
without error, whatever the intent oracles do — intent-extraction failure
never aborts it; and (iii) when both intent calls of an attempt raise, that
attempt proceeds to search with the fallback intent, whose normalized query
is the trimmed input query. -/
theorem C4_failure_semantics :
    (∀ env query filters lang thr mr fuel rc prev ev,
      pyStrip query ≠ "" → (env : LoopEnv).searchCall rc = .raises →
      (loopIter env query filters lang thr mr (fuel+1) rc prev ev).result
          = .error .runtimeError
      ∧ (∀ h t, AgentEvent.citationsEvent h t
          ∉ (loopIter env query filters lang thr mr (fuel+1) rc prev ev).events)
      ∧ (loopIter env query filters lang thr mr (fuel+1) rc prev ev).steps.length
          = 1)
    ∧ (∀ env query filters lang thr mr,
        pyStrip query ≠ "" → (∀ k, (env : LoopEnv).searchCall k ≠ .raises) →
        ∃ h t, (runLoop env query filters lang thr mr).result = .ok (h, t))
    ∧ (∀ env query filters lang thr mr fuel rc prev ev,
        pyStrip query ≠ "" → (env : LoopEnv).intentCall rc = .raises →
        env.retryIntentCall rc = .raises → env.searchCall rc ≠ .raises →
        (loopIter env query filters lang thr mr (fuel+1) rc prev ev).searchQueries.head?
            = some (pyStrip query)) := by
  refine ⟨?_, ?_, ?_⟩
  · intro env query filters lang thr mr fuel rc prev ev hq hraise
    obtain ⟨intent, hint⟩ := attemptIntent_ok env query filters lang rc prev ev hq
    simp only [loopIter, hint, hraise]
    refine ⟨by simp, ?_, by simp⟩
    intro h t hmem
    simp at hmem
  · intro env query filters lang thr mr hq hs
    obtain ⟨h, t, hres, -, -⟩ := loopIter_completes env query filters lang thr mr
      hs hq (mr + 1) 0 none [] (by omega) (by omega)
    exact ⟨h, t, hres⟩
  · intro env query filters lang thr mr fuel rc prev ev hq h1 h2 hsr
    obtain ⟨i, hint, hnq⟩ := attemptIntent_fallback env query filters lang rc
      prev ev hq h1 h2
    obtain ⟨sr, hok⟩ : ∃ sr, env.searchCall rc = .ok sr := by
      cases hcall : env.searchCall rc with
      | raises => exact absurd hcall hsr
      | ok sr => exact ⟨sr, rfl⟩
    simp only [loopIter, hint, hok]
    by_cases hretry :
        should_retry (relevanceStep env rc sr).2.1 thr rc mr = true
    · rw [if_pos hretry]
      simp [hnq]
    · rw [if_neg hretry]
      simp [hnq]

/-- Witness for C4: concrete instantiations of all three parts of
`C4_failure_semantics` — a failing search aborts a run with query `"test"`,
an always-successful search environment completes despite raising intent
calls, and a raising intent attempt hands the trimmed fallback query to the
search provider. -/
theorem C4_failure_semantics_witness :
    ((loopIter envSearchRaises "test" none "en" 1 2 3 0 none []).result
        = .error .runtimeError
      ∧ (∀ h t, AgentEvent.citationsEvent h t
          ∉ (loopIter envSearchRaises "test" none "en" 1 2 3 0 none []).events)
      ∧ (loopIter envSearchRaises "test" none "en" 1 2 3 0 none []).steps.length = 1)
    ∧ (∃ h t, (runLoop envIntentRaises "padded query " none "en" 1 1).result
        = .ok (h, t))
    ∧ (loopIter envIntentRaises "  demo  " none "en" 1 2 3 0 none []).searchQueries.head?
        = some (pyStrip "  demo  ") :=
  ⟨C4_failure_semantics.1 envSearchRaises "test" none "en" 1 2 2 0 none []
      (by decide) rfl,
   C4_failure_semantics.2.1 envIntentRaises "padded query " none "en" 1 1
      (by decide) (fun _ h => SearchCall.noConfusion h),
   C4_failure_semantics.2.2 envIntentRaises "  demo  " none "en" 1 2 2 0 none []
      (by decide) rfl rfl (fun h => SearchCall.noConfusion h)⟩
